import Mathlib

/-! Verification development for the bookScraper repository.

This file gives a shallow embedding of the ISBN validator and the
download routine of src/bookScraper.py, and of the Library Genesis
client (Library / Book) of src/libGen.py, together with theorems about
the specified behaviour of those functions.

Modelling conventions:
  * Python strings are Lean `String`s restricted to ASCII content (all
    concrete inputs in the repository are ASCII).
  * A Python dict with string keys is an association list
    (`List (String × α)`); real dicts have unique keys, so the
    first-match semantics of `assocGet` agrees with dict access.
  * Fallible Python code is embedded in `Except`/`Option`; a `none` or
    `.error` value models a raised exception, and the embedded error
    value records which exception and message the source raises.
  * HTTP traffic is out of scope; functions that consume a response are
    parameterized by the parsed response value, and functions that
    would issue a request return the request payload in their `.ok`
    branch, so `.error` means the request is never issued.
-/

/-- First value bound to key `k` in an association list, modelling
Python dict access / membership.  Keys of a real dict are unique, so
the first binding is the only one. -/
def assocGet {α : Type} : List (String × α) → String → Option α
  | [], _ => none
  | (k', v) :: rest, k => if k' = k then some v else assocGet rest k

namespace LibGen

/-- Field-name / value mapping: one JSON object from the lookup
endpoint, or the keyword arguments of `Book.__init__`. -/
abbrev FieldMap := List (String × String)

/-- `constants.SEARCH_MODES` from src/libGen.py. -/
def SEARCH_MODES : List String := ["title", "author", "isbn"]

/-- `constants.SEARCH_RESULTS_PER_PAGE` from src/libGen.py. -/
def SEARCH_RESULTS_PER_PAGE : List Nat := [25, 50, 100]

/-- `constants.DEFAULT_BOOK_FIELDS` from src/libGen.py.  Note that it
already contains "id" as its last element. -/
def DEFAULT_BOOK_FIELDS : List String :=
  ["title", "author", "year", "edition", "pages", "identifier",
   "extension", "filesize", "md5", "id"]

/-- `constants.ALL_BOOK_FIELDS` from src/libGen.py (a `set` in the
source; only membership is ever used, so a list is a faithful model). -/
def ALL_BOOK_FIELDS : List String :=
  ["aich", "asin", "author", "bookmarked", "btih", "city", "cleaned",
   "color", "commentary", "coverurl", "crc32", "ddc", "descr", "doi",
   "dpi", "edition", "extension", "filesize", "generic",
   "googlebookid", "id", "identifierwodash", "issn", "language",
   "lbc", "lcc", "library", "local", "locator", "md5",
   "openlibraryid", "orientation", "pages", "paginated", "periodical",
   "publisher", "scanned", "searchable", "series", "sha1", "sha256",
   "tags", "timeadded", "timelastmodified", "title", "toc", "topic",
   "torrent", "tth", "udc", "visible", "volumeinfo", "year"]

/-- The exceptions the embedded libGen.py code can raise:
`exceptions.LibraryException`, `exceptions.BookException`,
`requests.HTTPError(code)`, and the `assert` in `Library.lookup`. -/
inductive LibError where
  | libraryExc : String → LibError
  | bookExc : String → LibError
  | httpError : Nat → LibError
  | assertionFailed : LibError
deriving DecidableEq

/-- `Book.__MANDATORY_FIELDS` from src/libGen.py, in source order. -/
def MANDATORY_FIELDS : List String := ["id", "md5"]

/-- Models a constructed `Book`: its `__dict__` after the allow-list
filtering done in `Book.__init__`. -/
structure Book where
  fields : FieldMap
deriving DecidableEq

/-- The dict comprehension in `Book.__init__` (src/libGen.py line
154-156): keep exactly the fields whose key is in the allow-list. -/
def keepKnown (m : FieldMap) : FieldMap :=
  m.filter (fun kv => ALL_BOOK_FIELDS.contains kv.1)

/-- The loop over `__MANDATORY_FIELDS` in `Book.__init__` raises at the
first mandatory field absent from the filtered `__dict__`; this is that
first missing field, if any. -/
def firstMissingMandatory (m : FieldMap) : Option String :=
  MANDATORY_FIELDS.find? (fun f => (assocGet (keepKnown m) f).isNone)

/-- `Book.__init__` (src/libGen.py lines 153-161): filter the keyword
arguments through the allow-list, then fail on the first missing
mandatory field, with the source's message. -/
def mkBook (m : FieldMap) : Except LibError Book :=
  match firstMissingMandatory m with
  | some f => .error (.bookExc ("Book is missing mandatory field " ++ f ++ "."))
  | none => .ok ⟨keepKnown m⟩

/-- The search request `Library.search` would issue (mirror search URL
parameters); producing this value models reaching the HTTP GET on
src/libGen.py line 231. -/
structure SearchRequest where
  query : String
  mode : String
  page : Int
  per_page : Nat
deriving DecidableEq

/-- The message of the `LibraryException` raised for an unsupported
mode (src/libGen.py lines 211-216), with the format string applied. -/
def modeErrorMsg (mode : String) : String :=
  "Search mode " ++ mode ++ " not supported.\nPlease specify one of: title, author, isbn"

/-- The message of the `LibraryException` raised for a non-positive
page number (src/libGen.py line 219). -/
def pageErrorMsg : String := "page number must be > 0."

/-- The message of the `LibraryException` raised for an unsupported
results-per-page count (src/libGen.py lines 221-229). -/
def perPageErrorMsg (per_page : Nat) : String :=
  toString per_page ++
    " results per page is not supported, sadly.\nPlease specify one of: 25, 50, 100"

/-- `Library.search` (src/libGen.py lines 191-238) up to the request:
the three parameter validations in source order; an `.ok` result is the
request that is then issued, an `.error` result is raised before any
HTTP request is made. -/
def search (query mode : String) (page : Int) (per_page : Nat) :
    Except LibError SearchRequest :=
  if SEARCH_MODES.contains mode = false then
    .error (.libraryExc (modeErrorMsg mode))
  else if page ≤ 0 then
    .error (.libraryExc pageErrorMsg)
  else if SEARCH_RESULTS_PER_PAGE.contains per_page = false then
    .error (.libraryExc (perPageErrorMsg per_page))
  else
    .ok ⟨query, mode, page, per_page⟩

/-- The state of the caller's `fields` list object after
`Library.lookup` runs lines 268-269 of src/libGen.py: `fields.append('id')`
mutates the caller's list in place when "id" is absent.  The later
`fields = ['*']` on line 271 rebinds the local name to a new list and
does not affect the caller's object, so this is the caller-visible
final state. -/
def forceId (fields : List String) : List String :=
  if fields.contains "id" then fields else fields ++ ["id"]

/-- The field list actually sent in the lookup request URL
(src/libGen.py lines 268-276): "id" forced in, then a wildcard "*"
anywhere in the list replaces the whole list. -/
def requestFields (fields : List String) : List String :=
  if (forceId fields).contains "*" then ["*"] else forceId fields

/-- The generator loop of `Library.lookup` (src/libGen.py lines
286-288), collected eagerly: for each (record, requested id) pair,
`assert book_data['id'] == _id`, then construct the Book. -/
def lookupGo : List (FieldMap × String) → Except LibError (List Book)
  | [] => .ok []
  | (bd, i) :: rest =>
    if assocGet bd "id" = some i then
      match mkBook bd with
      | .error e => .error e
      | .ok b =>
        match lookupGo rest with
        | .error e => .error e
        | .ok bs => .ok (b :: bs)
    else .error .assertionFailed

/-- `Library.lookup` (src/libGen.py lines 240-288), parameterized by
`resp`, the parsed JSON array returned by the lookup endpoint: an empty
response raises `requests.HTTPError(400)` (line 284), otherwise the
records are zipped with the requested ids (`ids` already normalized to
strings) and turned into Books. -/
def lookup (ids : List String) (resp : List FieldMap) :
    Except LibError (List Book) :=
  if resp.isEmpty then .error (.httpError 400)
  else lookupGo (resp.zip ids)

end LibGen

namespace BookScraper

/-- Numeric value of a decimal digit character, as `int(char)` yields
for '0'..'9'. -/
def digitVal (c : Char) : Nat := c.toNat - '0'.toNat

/-- Drop trailing characters satisfying `p`. -/
def dropTrailing (p : Char → Bool) (l : List Char) : List Char :=
  (l.reverse.dropWhile p).reverse

/-- Leading and trailing whitespace removal, as Python `int()` performs
on its string argument. -/
def stripWs (l : List Char) : List Char :=
  dropTrailing Char.isWhitespace (l.dropWhile Char.isWhitespace)

/-- Remove one optional leading sign, as Python `int()` accepts. -/
def stripSign (l : List Char) : List Char :=
  match l with
  | [] => []
  | c :: r => if c = '+' ∨ c = '-' then r else c :: r

/-- A nonempty digit run in which single underscores may stand strictly
between two digits: the digit-sequence grammar of Python `int()`. -/
def digitsUnderscore : List Char → Bool
  | [] => false
  | [c] => c.isDigit
  | c :: d :: rest =>
    if d = '_' then c.isDigit && digitsUnderscore rest
    else c.isDigit && digitsUnderscore (d :: rest)

/-- Whether Python `int(s)` succeeds on an ASCII string `s`: optional
surrounding whitespace, an optional sign, then a digit run with
optional single underscores between digits.  This is the `int(isbn)`
call guarded by try/except in `check_isbn` (src/bookScraper.py lines
21-24). -/
def pyIntOk (s : String) : Bool :=
  digitsUnderscore (stripSign (stripWs s.data))

/-- The list comprehension `[int(char) for char in isbn]` on line 26 of
src/bookScraper.py: `none` models the `ValueError` that `int(char)`
raises on a non-digit character, which line 26 does NOT guard. -/
def charDigits : List Char → Option (List Nat)
  | [] => some []
  | c :: rest =>
    if c.isDigit then (charDigits rest).map (fun ds => digitVal c :: ds)
    else none

/-- The length-10 loop of `check_isbn` (src/bookScraper.py lines
29-33): running sum `t`, running total `s`; per digit, `t += d` then
`s += t`. -/
def isbn10go : List Nat → Nat → Nat → Nat
  | [], _, s => s
  | d :: rest, t, s => isbn10go rest (t + d) (s + (t + d))

/-- The length-13 loop of `check_isbn` (src/bookScraper.py lines
36-41): even 0-indexed positions weigh 1, odd positions weigh 3. -/
def isbn13go : List Nat → Nat → Nat
  | [], _ => 0
  | d :: rest, i => (if i % 2 = 0 then d else d * 3) + isbn13go rest (i + 1)

/-- `check_isbn` from src/bookScraper.py (lines 17-44).  A `none`
result models an uncaught exception escaping the function; `some b`
models a normal return of `b`. -/
def check_isbn (s : String) : Option Bool :=
  if pyIntOk s then
    match charDigits s.data with
    | none => none
    | some ds =>
      if ds.length = 10 then some (decide (isbn10go ds 0 0 % 11 = 0))
      else if ds.length = 13 then some (decide (isbn13go ds 0 % 10 = 0))
      else some false
  else some false

/-- Reference 10-digit checksum total, following the spec's words: `t`
after step `i` is the sum of the first `i+1` digits, and `s` is the sum
of those running values. -/
def specSum10 (ds : List Nat) : Nat :=
  ((List.range 10).map (fun i => (ds.take (i + 1)).sum)).sum

/-- Reference 13-digit checksum total, following the spec's words:
digits at even 0-indexed positions count once, digits at odd positions
count three times. -/
def specSum13 (ds : List Nat) : Nat :=
  ((List.range 13).map
    (fun i => if i % 2 = 0 then ds.getD i 0 else 3 * ds.getD i 0)).sum

/-- The reference checksum validity predicate stated by the spec
(section 4.1), for comparison with `check_isbn`: length 10 uses the
double-accumulation sum mod 11, length 13 the weighted sum mod 10, any
other length is invalid. -/
def spec_isbn_valid (ds : List Nat) : Bool :=
  if ds.length = 10 then decide (specSum10 ds % 11 = 0)
  else if ds.length = 13 then decide (specSum13 ds % 10 = 0)
  else false

/-- One anchor element of the fetched redirect page, as seen by
`soup.find('a', href=True, text='GET')`: its link text and its
(optional) href attribute.  Parsing HTML into this shape is the
out-of-scope black box. -/
structure Anchor where
  text : String
  href : Option String
deriving DecidableEq

/-- Failures of the link-resolution step of `download_books`. -/
inductive DownloadError where
  | parseError : DownloadError
deriving DecidableEq

/-- `soup.find('a', href=True, text='GET')` from src/bookScraper.py
line 70: the first anchor that has an href attribute and whose link
text is exactly "GET"; `none` when no such anchor exists. -/
def findGetAnchor (anchors : List Anchor) : Option Anchor :=
  anchors.find? (fun a => a.href.isSome && a.text == "GET")

/-- The link-resolution step of `download_books` (src/bookScraper.py
line 70): when `find` returns `None`, subscripting it with `['href']`
raises (the spec's ParseError); otherwise the relative href is prefixed
with the host to form the absolute download link. -/
def resolveDownloadLink (anchors : List Anchor) : Except DownloadError String :=
  match findGetAnchor anchors with
  | none => .error .parseError
  | some a => .ok ("http://93.174.95.29" ++ a.href.getD "")

/-- Result of the write phase of `download_books`: the directory
contents after the call and the log lines it emitted. -/
structure DownloadOutcome where
  files : List (String × List Nat)
  logs : List String
deriving DecidableEq

/-- The write phase of `download_books` (src/bookScraper.py lines
75-95), with the filesystem passed explicitly: `files` maps each
existing filename to its byte content, `chunks` is the streamed
response body (`r.iter_content`), `total_size` the Content-Length
header value (0 when absent).  If the target filename already exists
the body is not written and the skip is logged; otherwise the chunks
are concatenated into a new file and `wrote` counts the bytes written.
Afterwards a nonzero declared size differing from `wrote` logs a
download error, else a success line. -/
def downloadWrite (files : List (String × List Nat)) (filename : String)
    (chunks : List (List Nat)) (total_size : Nat) : DownloadOutcome :=
  let fileExists := (assocGet files filename).isSome
  let files' := if fileExists then files else (filename, chunks.flatten) :: files
  let wrote := if fileExists then 0 else (chunks.map List.length).sum
  let skipLog : List String := if fileExists then ["File already exists"] else []
  let endLog : List String :=
    if total_size ≠ 0 ∧ wrote ≠ total_size then ["Download error"]
    else ["File downloaded successfully: " ++ filename]
  ⟨files', skipLog ++ endLog⟩

end BookScraper

open LibGen BookScraper

/-! ### Helper lemmas about characters and Python int() parsing -/

/-- A decimal digit character is not whitespace. -/
theorem digit_not_ws (c : Char) (h : c.isDigit = true) : c.isWhitespace = false := by
  cases hw : c.isWhitespace with
  | false => rfl
  | true =>
    exfalso
    simp only [Char.isWhitespace, Bool.or_eq_true, decide_eq_true_eq] at hw
    rcases hw with ((h1 | h1) | h1) | h1 <;> subst h1 <;> exact absurd h (by decide)

/-- A decimal digit character is not a sign character. -/
theorem digit_ne_sign (c : Char) (h : c.isDigit = true) : ¬(c = '+' ∨ c = '-') := by
  rintro (rfl | rfl) <;> exact absurd h (by decide)

/-- A decimal digit character is not an underscore. -/
theorem digit_ne_underscore (c : Char) (h : c.isDigit = true) : c ≠ '_' := by
  rintro rfl; exact absurd h (by decide)

/-- Leading-whitespace removal is the identity on all-digit lists. -/
theorem dropWhile_ws_of_digits (l : List Char) (h : ∀ c ∈ l, c.isDigit = true) :
    l.dropWhile Char.isWhitespace = l := by
  cases l with
  | nil => rfl
  | cons c t =>
    have hc := digit_not_ws c (h c (List.mem_cons_self c t))
    simp [List.dropWhile_cons, hc]

/-- Whitespace stripping is the identity on all-digit lists. -/
theorem stripWs_of_digits (l : List Char) (h : ∀ c ∈ l, c.isDigit = true) :
    stripWs l = l := by
  unfold stripWs dropTrailing
  rw [dropWhile_ws_of_digits l h]
  rw [dropWhile_ws_of_digits l.reverse (fun c hc => h c (List.mem_reverse.mp hc))]
  exact List.reverse_reverse l

/-- Sign stripping is the identity on all-digit lists. -/
theorem stripSign_of_digits (l : List Char) (h : ∀ c ∈ l, c.isDigit = true) :
    stripSign l = l := by
  cases l with
  | nil => rfl
  | cons c t =>
    have hc := digit_ne_sign c (h c (List.mem_cons_self c t))
    simp [stripSign, hc]

/-- A nonempty all-digit list is a valid Python int() digit run. -/
theorem digitsUnderscore_of_digits (l : List Char) (hne : l ≠ [])
    (h : ∀ c ∈ l, c.isDigit = true) : digitsUnderscore l = true := by
  induction l with
  | nil => exact absurd rfl hne
  | cons c t ih =>
    cases t with
    | nil => simpa [digitsUnderscore] using h c (List.mem_cons_self c [])
    | cons d r =>
      have hd : d ≠ '_' :=
        digit_ne_underscore d (h d (List.mem_cons_of_mem c (List.mem_cons_self d r)))
      have hrec := ih (by simp) (fun x hx => h x (List.mem_cons_of_mem c hx))
      have hc := h c (List.mem_cons_self c (d :: r))
      simp [digitsUnderscore, hd, hc, hrec]

/-- Python `int()` succeeds on every nonempty all-digit string. -/
theorem pyIntOk_of_digits (s : String) (hne : s.data ≠ [])
    (h : ∀ c ∈ s.data, c.isDigit = true) : pyIntOk s = true := by
  unfold pyIntOk
  rw [stripWs_of_digits s.data h, stripSign_of_digits s.data h]
  exact digitsUnderscore_of_digits s.data hne h

/-- On an all-digit list, the digit-list comprehension succeeds and
returns the digit values. -/
theorem charDigits_of_digits (l : List Char) (h : ∀ c ∈ l, c.isDigit = true) :
    charDigits l = some (l.map digitVal) := by
  induction l with
  | nil => rfl
  | cons c t ih =>
    have hc := h c (List.mem_cons_self c t)
    simp [charDigits, hc, ih (fun x hx => h x (List.mem_cons_of_mem c hx))]

/-- On a ten-element digit list, the source's running double-accumulation
loop computes the spec's sum of running prefix totals. -/
theorem isbn10go_eq_specSum10 (ds : List Nat) (h : ds.length = 10) :
    isbn10go ds 0 0 = specSum10 ds := by
  rcases ds with _ | ⟨d0, ds⟩; · simp at h
  rcases ds with _ | ⟨d1, ds⟩; · simp at h
  rcases ds with _ | ⟨d2, ds⟩; · simp at h
  rcases ds with _ | ⟨d3, ds⟩; · simp at h
  rcases ds with _ | ⟨d4, ds⟩; · simp at h
  rcases ds with _ | ⟨d5, ds⟩; · simp at h
  rcases ds with _ | ⟨d6, ds⟩; · simp at h
  rcases ds with _ | ⟨d7, ds⟩; · simp at h
  rcases ds with _ | ⟨d8, ds⟩; · simp at h
  rcases ds with _ | ⟨d9, ds⟩; · simp at h
  obtain rfl : ds = [] := by simpa using h
  simp [isbn10go, specSum10, List.range_succ]
  omega

/-- On a thirteen-element digit list, the source's position-parity loop
computes the spec's weighted sum. -/
theorem isbn13go_eq_specSum13 (ds : List Nat) (h : ds.length = 13) :
    isbn13go ds 0 = specSum13 ds := by
  rcases ds with _ | ⟨d0, ds⟩; · simp at h
  rcases ds with _ | ⟨d1, ds⟩; · simp at h
  rcases ds with _ | ⟨d2, ds⟩; · simp at h
  rcases ds with _ | ⟨d3, ds⟩; · simp at h
  rcases ds with _ | ⟨d4, ds⟩; · simp at h
  rcases ds with _ | ⟨d5, ds⟩; · simp at h
  rcases ds with _ | ⟨d6, ds⟩; · simp at h
  rcases ds with _ | ⟨d7, ds⟩; · simp at h
  rcases ds with _ | ⟨d8, ds⟩; · simp at h
  rcases ds with _ | ⟨d9, ds⟩; · simp at h
  rcases ds with _ | ⟨d10, ds⟩; · simp at h
  rcases ds with _ | ⟨d11, ds⟩; · simp at h
  rcases ds with _ | ⟨d12, ds⟩; · simp at h
  obtain rfl : ds = [] := by simpa using h
  simp [isbn13go, specSum13, List.range_succ]
  omega

/-! ### Claim theorems -/

/-- C1: on every candidate string composed entirely of decimal digits,
`check_isbn` returns normally and its boolean result agrees with the
spec's reference checksum: length 10 is validated by the running
double-accumulation total mod 11, length 13 by the 1/3-weighted
position sum mod 10, and any other length is invalid. -/
theorem claim_C1_isbn_checksum (s : String) (h : ∀ c ∈ s.data, c.isDigit = true) :
    check_isbn s = some (spec_isbn_valid (s.data.map digitVal)) := by
  by_cases hE : s.data = []
  · have hp : pyIntOk s = false := by
      unfold pyIntOk
      rw [hE]
      rfl
    simp [check_isbn, hp, spec_isbn_valid, hE]
  · have hp : pyIntOk s = true := pyIntOk_of_digits s hE h
    have hcd : charDigits s.data = some (s.data.map digitVal) := charDigits_of_digits s.data h
    unfold check_isbn
    rw [hp, hcd]
    simp only [if_true]
    by_cases h10 : (s.data.map digitVal).length = 10
    · rw [spec_isbn_valid, if_pos h10, if_pos h10, isbn10go_eq_specSum10 _ h10]
    · by_cases h13 : (s.data.map digitVal).length = 13
      · rw [spec_isbn_valid, if_neg h10, if_neg h10, if_pos h13, if_pos h13,
          isbn13go_eq_specSum13 _ h13]
      · rw [spec_isbn_valid, if_neg h10, if_neg h10, if_neg h13, if_neg h13]

/-- Witness for C1: the known-good ten-digit string "1566199093" is all
digits, and `check_isbn` accepts it, via the claim theorem and
evaluation of the reference checksum. -/
theorem claim_C1_isbn_checksum_witness :
    (∀ c ∈ "1566199093".data, c.isDigit = true) ∧
    check_isbn "1566199093" = some true :=
  ⟨by decide, (claim_C1_isbn_checksum "1566199093" (by decide)).trans (by decide)⟩

/-- C2 (code bug): the claim says `check_isbn` never raises on any
string input, but on "+0" the code raises an uncaught ValueError
(modelled by `none`): `int("+0")` inside the try block succeeds, so the
except branch is not taken, and then `int('+')` in the unguarded digit
list comprehension on line 26 raises. -/
theorem claim_C2_totality_code_bug : check_isbn "+0" = none := by rfl

/-- C3: whenever the mode is not one of title/author/isbn, or the page
is not positive, or the per-page count is not one of 25/50/100,
`Library.search` raises a LibraryException whose message names the
offending value and lists the legal ones (the three message-builders
spell this out), and no search request is produced, hence no HTTP
request is made. -/
theorem claim_C3_search_validation (query mode : String) (page : Int) (per_page : Nat)
    (h : SEARCH_MODES.contains mode = false ∨ page ≤ 0 ∨
      SEARCH_RESULTS_PER_PAGE.contains per_page = false) :
    search query mode page per_page = .error (.libraryExc (modeErrorMsg mode)) ∨
    search query mode page per_page = .error (.libraryExc pageErrorMsg) ∨
    search query mode page per_page = .error (.libraryExc (perPageErrorMsg per_page)) := by
  unfold search
  by_cases h1 : SEARCH_MODES.contains mode = false
  · exact Or.inl (by rw [if_pos h1])
  · rw [if_neg h1]
    by_cases h2 : page ≤ 0
    · exact Or.inr (Or.inl (by rw [if_pos h2]))
    · rw [if_neg h2]
      have h3 : SEARCH_RESULTS_PER_PAGE.contains per_page = false := by
        rcases h with h | h | h
        · exact absurd h h1
        · exact absurd h h2
        · exact h
      exact Or.inr (Or.inr (by rw [if_pos h3]))

/-- Witness for C3: mode "publisher" with the legal page 1 and the
illegal 10 results per page is rejected. -/
theorem claim_C3_search_validation_witness :
    (SEARCH_MODES.contains "publisher" = false ∨ (1 : Int) ≤ 0 ∨
      SEARCH_RESULTS_PER_PAGE.contains 10 = false) ∧
    (search "dune" "publisher" 1 10 = .error (.libraryExc (modeErrorMsg "publisher")) ∨
     search "dune" "publisher" 1 10 = .error (.libraryExc pageErrorMsg) ∨
     search "dune" "publisher" 1 10 = .error (.libraryExc (perPageErrorMsg 10))) :=
  ⟨Or.inl (by decide),
   claim_C3_search_validation "dune" "publisher" 1 10 (Or.inl (by decide))⟩

/-- C4: for every id list, when the parsed JSON response of the lookup
endpoint is the empty array, `Library.lookup` raises
`requests.HTTPError(400)` instead of yielding zero records. -/
theorem claim_C4_empty_lookup_response (ids : List String) :
    lookup ids [] = .error (.httpError 400) := rfl



/-- Allow-list filtering does not change the value found for a
recognized key. -/
theorem assocGet_keepKnown_known (m : FieldMap) (k : String)
    (hk : k ∈ ALL_BOOK_FIELDS) :
    assocGet (keepKnown m) k = assocGet m k := by
  induction m with
  | nil => rfl
  | cons kv rest ih =>
    obtain ⟨k', v⟩ := kv
    by_cases hkk : k' = k
    · subst hkk
      simp [keepKnown, List.filter_cons, hk, assocGet]
    · by_cases hc : k' ∈ ALL_BOOK_FIELDS
      · simp only [keepKnown, List.filter_cons] at ih ⊢
        simp [hc, assocGet, hkk]
        simpa using ih
      · simp only [keepKnown, List.filter_cons] at ih ⊢
        simp [hc, assocGet, hkk]
        simpa using ih

/-- Allow-list filtering removes every unrecognized key. -/
theorem assocGet_keepKnown_unknown (m : FieldMap) (k : String)
    (hk : k ∉ ALL_BOOK_FIELDS) :
    assocGet (keepKnown m) k = none := by
  induction m with
  | nil => rfl
  | cons kv rest ih =>
    obtain ⟨k', v⟩ := kv
    by_cases hc : k' ∈ ALL_BOOK_FIELDS
    · have hkk : k' ≠ k := fun h => hk (h ▸ hc)
      simp only [keepKnown, List.filter_cons] at ih ⊢
      simp [hc, assocGet, hkk]
      simpa using ih
    · simp only [keepKnown, List.filter_cons] at ih ⊢
      simp [hc, assocGet]
      simpa using ih

/-- When "id" is absent after filtering, the mandatory-field loop stops
at "id", whatever the state of "md5". -/
theorem firstMissing_id (m : FieldMap)
    (h : assocGet (keepKnown m) "id" = none) :
    firstMissingMandatory m = some "id" := by
  unfold firstMissingMandatory MANDATORY_FIELDS
  have htrue : (assocGet (keepKnown m) "id").isNone = true := by rw [h]; rfl
  simp [List.find?_cons, htrue]

/-- The mandatory-field loop reports "md5" when "id" is present but
"md5" is absent after filtering. -/
theorem firstMissing_md5 (m : FieldMap)
    (h1 : (assocGet (keepKnown m) "id").isSome = true)
    (h2 : assocGet (keepKnown m) "md5" = none) :
    firstMissingMandatory m = some "md5" := by
  unfold firstMissingMandatory MANDATORY_FIELDS
  obtain ⟨v, hv⟩ := Option.isSome_iff_exists.mp h1
  have hfalse : (assocGet (keepKnown m) "id").isNone = false := by rw [hv]; rfl
  simp [List.find?_cons, hfalse, h2]

/-- The mandatory-field loop passes when both mandatory fields survive
filtering. -/
theorem firstMissing_none (m : FieldMap)
    (h1 : (assocGet (keepKnown m) "id").isSome = true)
    (h2 : (assocGet (keepKnown m) "md5").isSome = true) :
    firstMissingMandatory m = none := by
  unfold firstMissingMandatory MANDATORY_FIELDS
  obtain ⟨v, hv⟩ := Option.isSome_iff_exists.mp h1
  obtain ⟨w, hw⟩ := Option.isSome_iff_exists.mp h2
  have hf1 : (assocGet (keepKnown m) "id").isNone = false := by rw [hv]; rfl
  have hf2 : (assocGet (keepKnown m) "md5").isNone = false := by rw [hw]; rfl
  simp [List.find?_cons, hf1, hf2]

/-- C6: constructing a Book from a field mapping that contains the two
mandatory fields succeeds, keeps only recognized keys, preserves every
recognized key with its original value, and drops every unrecognized
key. -/
theorem claim_C6_book_roundtrip (m : FieldMap)
    (hid : (assocGet m "id").isSome = true)
    (hmd5 : (assocGet m "md5").isSome = true) :
    ∃ b, mkBook m = .ok b ∧
      (∀ kv ∈ b.fields, kv.1 ∈ ALL_BOOK_FIELDS) ∧
      (∀ k, k ∈ ALL_BOOK_FIELDS → assocGet b.fields k = assocGet m k) ∧
      (∀ k, k ∉ ALL_BOOK_FIELDS → assocGet b.fields k = none) := by
  have hid' : (assocGet (keepKnown m) "id").isSome = true := by
    rw [assocGet_keepKnown_known m "id" (by decide)]
    exact hid
  have hmd5' : (assocGet (keepKnown m) "md5").isSome = true := by
    rw [assocGet_keepKnown_known m "md5" (by decide)]
    exact hmd5
  refine ⟨⟨keepKnown m⟩, ?_, ?_, ?_, ?_⟩
  · unfold mkBook
    rw [firstMissing_none m hid' hmd5']
  · intro kv hkv
    have := (List.mem_filter.mp hkv).2
    simpa using this
  · exact fun k hk => assocGet_keepKnown_known m k hk
  · exact fun k hk => assocGet_keepKnown_unknown m k hk

/-- Witness for C6: a mapping with both mandatory fields and an
unrecognized key "junk" constructs a Book that keeps the recognized
keys with their values and drops the rest. -/
theorem claim_C6_book_roundtrip_witness :
    ((assocGet ([("id", "7"), ("md5", "beef"), ("junk", "x")] : FieldMap) "id").isSome = true) ∧
    ∃ b, mkBook [("id", "7"), ("md5", "beef"), ("junk", "x")] = .ok b ∧
      (∀ kv ∈ b.fields, kv.1 ∈ ALL_BOOK_FIELDS) ∧
      (∀ k, k ∈ ALL_BOOK_FIELDS →
        assocGet b.fields k = assocGet [("id", "7"), ("md5", "beef"), ("junk", "x")] k) ∧
      (∀ k, k ∉ ALL_BOOK_FIELDS → assocGet b.fields k = none) :=
  ⟨by decide, claim_C6_book_roundtrip [("id", "7"), ("md5", "beef"), ("junk", "x")]
    (by decide) (by decide)⟩

/-- C7: Book construction fails with the BookException naming "id" when
"id" is absent after filtering (whatever else is present, including a
missing "md5" as well, since "id" comes first in the mandatory tuple),
fails naming "md5" when "id" is present but "md5" is absent, and
succeeds when both mandatory fields are present. -/
theorem claim_C7_mandatory_fields (m : FieldMap) :
    (assocGet (keepKnown m) "id" = none →
      mkBook m = .error (.bookExc "Book is missing mandatory field id.")) ∧
    ((assocGet (keepKnown m) "id").isSome = true →
      assocGet (keepKnown m) "md5" = none →
      mkBook m = .error (.bookExc "Book is missing mandatory field md5.")) ∧
    ((assocGet (keepKnown m) "id").isSome = true →
      (assocGet (keepKnown m) "md5").isSome = true →
      mkBook m = .ok ⟨keepKnown m⟩) := by
  refine ⟨fun h => ?_, fun h1 h2 => ?_, fun h1 h2 => ?_⟩
  · unfold mkBook
    rw [firstMissing_id m h]
    rfl
  · unfold mkBook
    rw [firstMissing_md5 m h1 h2]
    rfl
  · unfold mkBook
    rw [firstMissing_none m h1 h2]

/-- Witness for C7: a mapping with only "md5" fails naming "id", a
mapping with only "id" (plus an unrecognized key) fails naming "md5",
and a mapping with both succeeds. -/
theorem claim_C7_mandatory_fields_witness :
    mkBook [("md5", "beef")] = .error (.bookExc "Book is missing mandatory field id.") ∧
    mkBook [("id", "7"), ("junk", "x")] =
      .error (.bookExc "Book is missing mandatory field md5.") ∧
    mkBook [("id", "7"), ("md5", "beef")] = .ok ⟨keepKnown [("id", "7"), ("md5", "beef")]⟩ :=
  ⟨(claim_C7_mandatory_fields [("md5", "beef")]).1 (by decide),
   (claim_C7_mandatory_fields [("id", "7"), ("junk", "x")]).2.1 (by decide) (by decide),
   (claim_C7_mandatory_fields [("id", "7"), ("md5", "beef")]).2.2 (by decide) (by decide)⟩

/-- Mapping the second projection over a zip of equally long lists
returns the second list. -/
theorem zip_map_snd_of_length_eq {α β : Type} :
    ∀ (l₁ : List α) (l₂ : List β), l₁.length = l₂.length →
      (l₁.zip l₂).map Prod.snd = l₂
  | [], [], _ => rfl
  | [], _ :: _, h => by simp at h
  | _ :: _, [], h => by simp at h
  | _ :: t₁, b :: t₂, h => by
    simp only [List.zip_cons_cons, List.map_cons]
    rw [zip_map_snd_of_length_eq t₁ t₂ (by simpa using h)]

/-- The lookup generator succeeds on a pair list in which every record
carries its requested id and a content hash, and produces one Book per
pair whose stored id is the requested id. -/
theorem lookupGo_ok (l : List (FieldMap × String))
    (h : ∀ p ∈ l, assocGet p.1 "id" = some p.2 ∧ (assocGet p.1 "md5").isSome = true) :
    ∃ bs, lookupGo l = .ok bs ∧
      List.Forall₂ (fun (b : Book) i => assocGet b.fields "id" = some i) bs
        (l.map Prod.snd) := by
  induction l with
  | nil => exact ⟨[], rfl, List.Forall₂.nil⟩
  | cons p rest ih =>
    obtain ⟨bd, i⟩ := p
    obtain ⟨hid, hmd5⟩ := h (bd, i) (List.mem_cons_self _ _)
    obtain ⟨bs, hbs, hfa⟩ := ih (fun q hq => h q (List.mem_cons_of_mem _ hq))
    have hid' : assocGet (keepKnown bd) "id" = some i := by
      rw [assocGet_keepKnown_known bd "id" (by decide)]
      exact hid
    have hmd5' : (assocGet (keepKnown bd) "md5").isSome = true := by
      rw [assocGet_keepKnown_known bd "md5" (by decide)]
      exact hmd5
    have hbook : mkBook bd = .ok ⟨keepKnown bd⟩ := by
      unfold mkBook
      rw [firstMissing_none bd (by rw [hid']; rfl) hmd5']
    refine ⟨⟨keepKnown bd⟩ :: bs, ?_, List.Forall₂.cons hid' hfa⟩
    simp [lookupGo, hid, hbook, hbs]

/-- C5 counterexample: the claim as stated is false on the code.  With
the single requested id "1" and an upstream response consisting of the
one matching record that carries only its id, `Library.lookup` does not
yield one Book: `Book.__init__` raises a BookException because the
record has no "md5" field.  And with the empty id list and the matching
empty response, lookup raises HTTPError(400) instead of yielding zero
Books. -/
theorem claim_C5_counterexample :
    assocGet ([("id", "1")] : FieldMap) "id" = some "1" ∧
    lookup ["1"] [[("id", "1")]] =
      .error (.bookExc "Book is missing mandatory field md5.") ∧
    lookup [] [] = .error (.httpError 400) := ⟨rfl, rfl, rfl⟩

/-- C5 (amended): for every nonempty id list, when the upstream
response has one record per requested id, in the same order, each
carrying its requested id and a content hash "md5", `Library.lookup`
yields exactly N Books, positionally paired with the requested ids and
each storing its requested id; moreover "id" is forced into the
caller's requested fields when absent, and a "*" anywhere in the fields
makes the requested field list exactly the wildcard. -/
theorem claim_C5_lookup_records :
    (∀ (ids : List String) (resp : List FieldMap),
      resp.length = ids.length → resp ≠ [] →
      (∀ p ∈ resp.zip ids,
        assocGet p.1 "id" = some p.2 ∧ (assocGet p.1 "md5").isSome = true) →
      ∃ bs, lookup ids resp = .ok bs ∧ bs.length = ids.length ∧
        List.Forall₂ (fun (b : Book) i => assocGet b.fields "id" = some i) bs ids) ∧
    (∀ fields, (forceId fields).contains "id" = true) ∧
    (∀ fields, fields.contains "*" = true → requestFields fields = ["*"]) := by
  refine ⟨?_, ?_, ?_⟩
  · intro ids resp hlen hne hrec
    obtain ⟨bs, hgo, hfa⟩ := lookupGo_ok (resp.zip ids) hrec
    rw [zip_map_snd_of_length_eq resp ids hlen] at hfa
    have hempty : resp.isEmpty = false := by
      cases resp with
      | nil => exact absurd rfl hne
      | cons a t => rfl
    exact ⟨bs, by simp [lookup, hempty, hgo], hfa.length_eq, hfa⟩
  · intro fields
    by_cases h : "id" ∈ fields
    · simp [forceId, List.contains, h]
    · simp [forceId, List.contains, h]
  · intro fields h
    have hmem : "*" ∈ fields := by
      simpa [List.contains] using h
    have hstar : "*" ∈ forceId fields := by
      by_cases hid : "id" ∈ fields
      · simpa [forceId, List.contains, hid] using hmem
      · simp [forceId, List.contains, hid, hmem]
    simp [requestFields, List.contains, hstar]

/-- Witness for the amended C5: one id "7" with one well-formed record
yields exactly one Book storing id "7"; "id" is appended to an id-less
field list; a field list containing "*" is collapsed to the
wildcard. -/
theorem claim_C5_lookup_records_witness :
    (∃ bs, lookup ["7"] [[("id", "7"), ("md5", "beef")]] = .ok bs ∧
      bs.length = (["7"] : List String).length ∧
      List.Forall₂ (fun (b : Book) i => assocGet b.fields "id" = some i) bs ["7"]) ∧
    (forceId []).contains "id" = true ∧
    requestFields ["*", "title"] = ["*"] :=
  ⟨claim_C5_lookup_records.1 ["7"] [[("id", "7"), ("md5", "beef")]] rfl
      (by decide) (by decide),
   claim_C5_lookup_records.2.1 [],
   claim_C5_lookup_records.2.2 ["*", "title"] (by decide)⟩

/-- C8: on every fetched redirect page whose markup has no anchor with
link text exactly "GET", the link-resolution step of `download_books`
fails: `find` returns nothing and subscripting the result raises (the
spec's ParseError). -/
theorem claim_C8_parse_error (anchors : List Anchor)
    (h : ∀ a ∈ anchors, a.text ≠ "GET") :
    resolveDownloadLink anchors = .error .parseError := by
  have hfind : findGetAnchor anchors = none := by
    unfold findGetAnchor
    apply List.find?_eq_none.mpr
    intro a ha
    simp [h a ha]
  simp [resolveDownloadLink, hfind]

/-- Witness for C8: a page with a single differently labelled anchor
makes the resolution step fail. -/
theorem claim_C8_parse_error_witness :
    (∀ a ∈ [Anchor.mk "Download" (some "/x.epub")], a.text ≠ "GET") ∧
    resolveDownloadLink [Anchor.mk "Download" (some "/x.epub")] = .error .parseError :=
  ⟨by decide, claim_C8_parse_error _ (by decide)⟩

/-- C9: when the target filename already names an existing file, the
write phase of `download_books` leaves the directory contents unchanged
(in particular that file's content), returns normally, and logs the
skip line "File already exists". -/
theorem claim_C9_skip_existing (files : List (String × List Nat)) (filename : String)
    (chunks : List (List Nat)) (total_size : Nat)
    (h : (assocGet files filename).isSome = true) :
    (downloadWrite files filename chunks total_size).files = files ∧
    "File already exists" ∈ (downloadWrite files filename chunks total_size).logs := by
  constructor
  · simp [downloadWrite, h]
  · simp [downloadWrite, h]

/-- Witness for C9: with "abc.epub" already on disk, a download of a
three-byte body leaves the directory unchanged and logs the skip. -/
theorem claim_C9_skip_existing_witness :
    ((assocGet [("abc.epub", [7, 7])] "abc.epub").isSome = true) ∧
    ((downloadWrite [("abc.epub", [7, 7])] "abc.epub" [[1, 2, 3]] 3).files
        = [("abc.epub", [7, 7])] ∧
      "File already exists" ∈
        (downloadWrite [("abc.epub", [7, 7])] "abc.epub" [[1, 2, 3]] 3).logs) :=
  ⟨by decide, claim_C9_skip_existing _ _ _ _ (by decide)⟩

/-- C10: for every fields list passed to `Library.lookup` that does not
contain "id", the `fields.append('id')` on line 269 mutates the
caller's list object in place: after the call the caller's list is the
old list with "id" appended, and in particular it is observably
different from the list passed in. -/
theorem claim_C10_fields_mutation (fields : List String)
    (h : fields.contains "id" = false) :
    forceId fields = fields ++ ["id"] ∧ forceId fields ≠ fields := by
  have h1 : forceId fields = fields ++ ["id"] := by
    unfold forceId
    rw [h]
    rfl
  refine ⟨h1, ?_⟩
  rw [h1]
  intro heq
  have := congrArg List.length heq
  simp at this

/-- Witness for C10: a caller's list without "id" is visibly mutated to
carry a trailing "id". -/
theorem claim_C10_fields_mutation_witness :
    (["title", "md5"].contains "id" = false) ∧
    forceId ["title", "md5"] = ["title", "md5", "id"] ∧
    forceId ["title", "md5"] ≠ ["title", "md5"] :=
  ⟨by decide, by
    have h := claim_C10_fields_mutation ["title", "md5"] (by decide)
    exact ⟨h.1.trans (by decide), h.2⟩⟩
